import Mathlib

/-!
Verification development for the llama-cag-n8n repository.

The file shallowly embeds the decision logic of the KV-cache bridge
(src/bridge/cag_bridge.py) and the registry reconciler
(src/scripts/python/list_caches.py) as executable Lean definitions, and
proves or refutes the frozen behavioural claims about them.

Modelling conventions:
- Python integers are Int; Python floor division (the // operator) is Int.fdiv.
- The filesystem is a partial map from path strings to byte lists; directories
  are abstracted away (os.makedirs with exist_ok never fails and is not
  observable through any claim).
- The external create/query commands are opaque: each run is described by the
  ProcResult it returned and the filesystem state it left behind, both taken
  as inputs of the embedded handler.
- Exceptions thrown by shutil.copy2 and os.remove are injected through the
  promoteOk and cleanupOk booleans; floats (temperature, the megabyte display
  division) are carried as their string rendering or left in bytes, since no
  claim depends on float arithmetic.
-/

/-- Context-size computation of handle_create_cache
(src/bridge/cag_bridge.py lines 139 and 140):
context_size = min(max(estimated_tokens + 1000, 2048), int(MAX_CONTEXT));
context_size = (context_size + 255) // 256 * 256. -/
def computeContextSize (estimatedTokens maxContext : Int) : Int :=
  let c := min (max (estimatedTokens + 1000) 2048) maxContext
  (c + 255).fdiv 256 * 256

/-- Rounding up to the next multiple of 256, the quantization unit named by
the spec, written with the same floor-division formula the source uses. -/
def roundUp256 (n : Int) : Int :=
  (n + 255).fdiv 256 * 256

/-- Byte content of a file. -/
abbrev Bytes := List Nat

/-- Filesystem model: a partial map from paths to file contents. -/
abbrev FS := String → Option Bytes

/-- Overwrite (or create) the file at path p with content c. -/
def FS.update (fs : FS) (p : String) (c : Bytes) : FS :=
  fun q => if q = p then some c else fs q

/-- Delete the file at path p. -/
def FS.remove (fs : FS) (p : String) : FS :=
  fun q => if q = p then none else fs q

/-- Process-wide configuration of the bridge, read from environment
variables at module load (cag_bridge.py lines 22 to 28). -/
structure BridgeConfig where
  masterKvCache : String
  modelPath : String
  queryScriptPath : String
  createScriptPath : String
  maxContext : Int
  threads : String
  batchSize : String
deriving DecidableEq

/-- Result of one run of an external command: exit code plus captured
stdout and stderr, as produced by subprocess communicate(). -/
structure ProcResult where
  returncode : Int
  stdout : String
  stderr : String
deriving DecidableEq

/-- Parsed body of a POST /create-cache request (cag_bridge.py
lines 122 to 127). -/
structure CreateRequest where
  documentId : String
  tempFilePath : String
  kvCachePath : String
  estimatedTokens : Int
  setAsMaster : Bool
deriving DecidableEq

/-- The 200 JSON body of /create-cache (cag_bridge.py lines 184 to 192). -/
structure CreateResponse where
  success : Bool
  documentId : String
  kvCachePath : String
  kvCacheSize : Option Nat
  contextSize : Int
  error : Option String
  output : String
deriving DecidableEq

/-- The 200 JSON body of /query (cag_bridge.py lines 94 to 99). -/
structure QueryResponse where
  success : Bool
  response : String
  error : Option String
  query : String
deriving DecidableEq

/-- Observable side-effect events of one /create-cache run. -/
inductive Event where
  | promoteAttempt (src dst : String)
  | removeTemp (p : String)
deriving DecidableEq

/-- Full outcome of one /create-cache request: the HTTP-level response
(error strings model the 500 exception path), the final filesystem, and
the emitted side-effect events in order. -/
structure CreateResult where
  resp : Except String CreateResponse
  fs : FS
  events : List Event

/-- Whether the list bs starts with the list ns (character lists). -/
def startsWithList : List Char → List Char → Bool
  | _, [] => true
  | [], _ :: _ => false
  | a :: as, b :: bs => a == b && startsWithList as bs

/-- Whether needle occurs contiguously inside the haystack. -/
def occursIn (needle : List Char) : List Char → Bool
  | [] => needle.isEmpty
  | c :: rest => startsWithList (c :: rest) needle || occursIn needle rest

/-- Python substring test: needle in hay. -/
def strContains (hay needle : String) : Bool :=
  occursIn needle.toList hay.toList

/-- The master-promotion trigger in document ids (cag_bridge.py line 161):
the literal token "master" occurring in document_id.lower(). -/
def isMasterDoc (documentId : String) : Bool :=
  strContains documentId.toLower "master"

/-- The fixed instruction template wrapped around a raw query
(cag_bridge.py line 71). -/
def formatQuery (q : String) : String :=
  "Answer this question based on your knowledge:\n\nQuestion: " ++ q ++ "\n\nAnswer:"

/-- The optional temperature flag (cag_bridge.py line 74): omitted entirely
when temperature is None, otherwise the rendered float follows the flag. -/
def tempFlag (temperature : Option String) : String :=
  match temperature with
  | some t => "--temp " ++ t
  | none => ""

/-- The query command line built by handle_query (cag_bridge.py line 75):
script, quoted model path, quoted master cache path, quoted formatted
query, max token count, temperature flag. -/
def buildQueryCommand (cfg : BridgeConfig) (query : String) (maxTokens : Int)
    (temperature : Option String) : String :=
  cfg.queryScriptPath ++ " \"" ++ cfg.modelPath ++ "\" \"" ++ cfg.masterKvCache
    ++ "\" \"" ++ formatQuery query ++ "\" " ++ toString maxTokens ++ " "
    ++ tempFlag temperature

/-- The cache-creation command line (cag_bridge.py line 143). -/
def buildCreateCommand (cfg : BridgeConfig) (tempFilePath kvCachePath : String)
    (contextSize : Int) : String :=
  cfg.createScriptPath ++ " \"" ++ cfg.modelPath ++ "\" \"" ++ tempFilePath
    ++ "\" \"" ++ kvCachePath ++ "\" " ++ toString contextSize ++ " "
    ++ cfg.threads ++ " " ++ cfg.batchSize

/-- Everything before the cache-path slot of the query command. -/
def queryCmdBeforeCache (cfg : BridgeConfig) : String :=
  cfg.queryScriptPath ++ " \"" ++ cfg.modelPath ++ "\" \""

/-- Everything after the cache-path slot of the query command. -/
def queryCmdAfterCache (query : String) (maxTokens : Int)
    (temperature : Option String) : String :=
  "\" \"" ++ formatQuery query ++ "\" " ++ toString maxTokens ++ " "
    ++ tempFlag temperature

/-- handle_query (cag_bridge.py lines 61 to 104): builds the command for the
external engine and assembles the 200 response from the process outcome.
Success and error are keyed solely on the exit code; stdout is echoed as the
response text and the raw query is echoed back. -/
def handleQuery (cfg : BridgeConfig) (query : String) (maxTokens : Int)
    (temperature : Option String) (proc : ProcResult) : String × QueryResponse :=
  (buildQueryCommand cfg query maxTokens temperature,
   { success := decide (proc.returncode = 0)
   , response := proc.stdout
   , error := if proc.returncode ≠ 0 then some proc.stderr else none
   , query := query })

/-- The post-invocation phase of handle_create_cache (cag_bridge.py lines
155 to 173): on a zero exit code with the cache file present its size is
recorded and, when the document id names master or setAsMaster is set, the
cache content is copied over the master path (a copy failure only logs);
other outcomes leave the size null and promote nothing. -/
def sizeAndPromote (cfg : BridgeConfig) (req : CreateRequest)
    (proc : ProcResult) (fs1 : FS) (promoteOk : Bool) :
    Option Nat × FS × List Event :=
  if proc.returncode = 0 then
    match fs1 req.kvCachePath with
    | some content =>
      if isMasterDoc req.documentId || req.setAsMaster then
        if promoteOk then
          (some content.length, FS.update fs1 cfg.masterKvCache content,
           [Event.promoteAttempt req.kvCachePath cfg.masterKvCache])
        else
          (some content.length, fs1,
           [Event.promoteAttempt req.kvCachePath cfg.masterKvCache])
      else
        (some content.length, fs1, [])
    | none => (none, fs1, [])
  else (none, fs1, [])

/-- The unconditional temp-file cleanup (cag_bridge.py lines 175 to 181):
the file is removed when present; an os.remove failure only logs. -/
def cleanupTemp (req : CreateRequest) (fs2 : FS) (cleanupOk : Bool) :
    FS × List Event :=
  if (fs2 req.tempFilePath).isSome then
    if cleanupOk then
      (FS.remove fs2 req.tempFilePath, [Event.removeTemp req.tempFilePath])
    else (fs2, [])
  else (fs2, [])

/-- Everything handle_create_cache does after its two validations
(cag_bridge.py lines 137 to 192): size the context, run the external
command (outcome proc, filesystem fs1), record size and promote, clean up,
and assemble the 200 response keyed on the exit code. -/
def createCore (cfg : BridgeConfig) (req : CreateRequest) (proc : ProcResult)
    (fs1 : FS) (promoteOk cleanupOk : Bool) : CreateResult :=
  let step := sizeAndPromote cfg req proc fs1 promoteOk
  let cleanup := cleanupTemp req step.2.1 cleanupOk
  { resp := Except.ok
      { success := decide (proc.returncode = 0)
      , documentId := req.documentId
      , kvCachePath := req.kvCachePath
      , kvCacheSize := step.1
      , contextSize := computeContextSize req.estimatedTokens cfg.maxContext
      , error := if proc.returncode ≠ 0 then some proc.stderr else none
      , output := proc.stdout }
  , fs := cleanup.1
  , events := step.2.2 ++ cleanup.2 }

/-- handle_create_cache (cag_bridge.py lines 116 to 199).
fs0 is the filesystem when the request is validated; the external create
command then runs (its outcome proc, the filesystem it leaves fs1); the
handler then optionally promotes to master, cleans up the temp file, and
assembles the 200 response. promoteOk and cleanupOk inject the success of
shutil.copy2 and os.remove; a ValueError before the invocation surfaces as
the 500 path (Except.error). -/
def handleCreateCache (cfg : BridgeConfig) (req : CreateRequest) (fs0 : FS)
    (proc : ProcResult) (fs1 : FS) (promoteOk cleanupOk : Bool) : CreateResult :=
  if req.documentId = "" then
    { resp := Except.error "documentId is required", fs := fs0, events := [] }
  else if (fs0 req.tempFilePath).isNone then
    { resp := Except.error ("Temp file not found at " ++ req.tempFilePath)
    , fs := fs0, events := [] }
  else
    createCore cfg req proc fs1 promoteOk cleanupOk

/-- One cache file found on disk by the recursive *.bin glob
(list_caches.py lines 87 to 89): path, basename, byte size, mtime. -/
structure FileInfo where
  path : String
  name : String
  sizeBytes : Nat
  mtime : Int
deriving DecidableEq

/-- One row of the cag_document_registry table selected by list_caches
(list_caches.py lines 100 to 106). last_used may be NULL; usage_count may
be NULL (the source applies "or 0" to it). -/
structure RegistryRow where
  kvCachePath : String
  documentId : String
  fileName : String
  chunkId : String
  lastUsed : Option Int
  usageCount : Option Nat
  createdAt : Int
  sectionTitle : String
deriving DecidableEq

/-- One entry of the produced inventory (list_caches.py lines 147 to 157).
size_mb is kept in bytes here: the megabyte conversion is a monotone
display division no claim depends on. -/
structure CacheEntry where
  cacheFile : String
  cacheName : String
  documentId : String
  fileName : String
  sectionTitle : String
  sizeBytes : Nat
  createdAt : Int
  lastUsed : Option Int
  usageCount : Nat
deriving DecidableEq

/-- The sort_by argument of list_caches. -/
inductive SortBy where
  | document
  | size
  | date
  | usage
deriving DecidableEq

/-- Characters after the last slash of a character list. -/
def afterLastSlash : List Char → List Char
  | [] => []
  | c :: rest =>
    if rest.contains '/' then afterLastSlash rest
    else if c = '/' then rest else c :: rest

/-- os.path.basename for ordinary slash-separated paths. -/
def basenameOf (p : String) : String :=
  String.mk (afterLastSlash p.toList)

/-- Lookup in the db_info dictionary (list_caches.py lines 112 to 123):
keyed by the basename of kv_cache_path, rows inserted in order so a later
row with the same basename overwrites an earlier one. -/
def dbLookup (rows : List RegistryRow) (name : String) : Option RegistryRow :=
  (rows.filter (fun r => basenameOf r.kvCachePath = name)).getLast?

/-- Join of one disk file with its registry row (list_caches.py lines
126 to 136): when the registry is unavailable or has no row for the
basename, the defaults are usage_count 0, document_id and file_name
"unknown", empty section, null last_used, created_at from the file mtime. -/
def mkEntry (db : Option (List RegistryRow)) (f : FileInfo) : CacheEntry :=
  let info : Option RegistryRow :=
    match db with
    | none => none
    | some rows => dbLookup rows f.name
  match info with
  | some r =>
    { cacheFile := f.path, cacheName := f.name
    , documentId := r.documentId, fileName := r.fileName
    , sectionTitle := r.sectionTitle, sizeBytes := f.sizeBytes
    , createdAt := r.createdAt, lastUsed := r.lastUsed
    , usageCount := r.usageCount.getD 0 }
  | none =>
    { cacheFile := f.path, cacheName := f.name
    , documentId := "unknown", fileName := "unknown"
    , sectionTitle := "", sizeBytes := f.sizeBytes
    , createdAt := f.mtime, lastUsed := none, usageCount := 0 }

/-- The two skip filters of the collection loop (list_caches.py lines
139 to 145), as a keep predicate. The days filter only fires when
last_used is truthy, so an entry with null last_used is retained; the
cutoff is now minus days in seconds (timedelta semantics). -/
def keepEntry (days : Option Int) (unusedOnly : Bool) (now : Int)
    (e : CacheEntry) : Bool :=
  (match days, e.lastUsed with
   | some d, some t => !(decide (t < now - d * 86400))
   | _, _ => true)
  && !(unusedOnly && decide (0 < e.usageCount))

/-- The four sort orders (list_caches.py lines 160 to 167): document is a
lexicographic ascending sort on (document_id, file_name); size, date and
usage sort descending on their key. -/
def sortEntries (sortBy : SortBy) (l : List CacheEntry) : List CacheEntry :=
  match sortBy with
  | SortBy.document =>
    l.mergeSort (fun a b =>
      decide (a.documentId < b.documentId)
        || (a.documentId == b.documentId && decide (a.fileName ≤ b.fileName)))
  | SortBy.size => l.mergeSort (fun a b => decide (b.sizeBytes ≤ a.sizeBytes))
  | SortBy.date => l.mergeSort (fun a b => decide (b.createdAt ≤ a.createdAt))
  | SortBy.usage => l.mergeSort (fun a b => decide (b.usageCount ≤ a.usageCount))

/-- list_caches (list_caches.py lines 70 to 187). dirExists is whether the
cache directory exists (early False return otherwise); files are the
globbed *.bin files; db is some rows when the database connection
succeeded and none when it failed (db_info stays empty then); now is the
single wall-clock instant used for the cutoff. The produced inventory is
returned instead of printed; none models the False failure return. -/
def list_caches (dirExists : Bool) (files : List FileInfo)
    (db : Option (List RegistryRow)) (now : Int) (days : Option Int)
    (unusedOnly : Bool) (sortBy : SortBy) : Option (List CacheEntry) :=
  if dirExists then
    some (sortEntries sortBy
      ((files.map (mkEntry db)).filter (keepEntry days unusedOnly now)))
  else none

/-- Sample configuration mirroring the default environment values. -/
def sampleCfg : BridgeConfig :=
  { masterKvCache := "/data/kv_caches/master_cache.bin"
  , modelPath := "/models/gemma-4b.gguf"
  , queryScriptPath := "/usr/local/bin/cag-scripts/query_kv_cache.sh"
  , createScriptPath := "/usr/local/bin/cag-scripts/create_kv_cache.sh"
  , maxContext := 128000
  , threads := "4"
  , batchSize := "1024" }

/-- Sample create request for a plain (non-master) document. -/
def sampleReq : CreateRequest :=
  { documentId := "doc1"
  , tempFilePath := "/tmp/doc1.txt"
  , kvCachePath := "/data/kv_caches/doc1.bin"
  , estimatedTokens := 5000
  , setAsMaster := false }

/-- Filesystem holding only the temp input file. -/
def fsWithTemp : FS :=
  fun p => if p = "/tmp/doc1.txt" then some [7, 7, 7] else none

/-- Filesystem after a successful external create run: the new cache file
exists and the temp input file is still present. -/
def fsAfterCreate : FS :=
  fun p =>
    if p = "/data/kv_caches/doc1.bin" then some [1, 2, 3]
    else if p = "/tmp/doc1.txt" then some [7, 7, 7]
    else none

/-- A successful external run. -/
def procOk : ProcResult := { returncode := 0, stdout := "built", stderr := "" }

/-- A failed external run with diagnostic stderr. -/
def procFail : ProcResult := { returncode := 1, stdout := "", stderr := "boom" }

/-- Disk file for the reconciler examples. -/
def c8File : FileInfo :=
  { path := "/kv/never_used.bin", name := "never_used.bin"
  , sizeBytes := 4096, mtime := 1000 }

/-- Registry row for the same file whose last_used is NULL. -/
def c8Row : RegistryRow :=
  { kvCachePath := "/kv/never_used.bin", documentId := "docX"
  , fileName := "x.txt", chunkId := "c1", lastUsed := none
  , usageCount := some 5, createdAt := 900, sectionTitle := "s" }

theorem computeContextSize_eq_ediv (t m : Int) :
    computeContextSize t m = (min (max (t + 1000) 2048) m + 255) / 256 * 256 := by
  simp only [computeContextSize]
  rw [Int.fdiv_eq_ediv _ (by decide)]

theorem roundUp256_eq_ediv (n : Int) :
    roundUp256 n = (n + 255) / 256 * 256 := by
  unfold roundUp256
  rw [Int.fdiv_eq_ediv _ (by decide)]

theorem computeContextSize_of_neg (t m : Int) (ht : t < 0) (hm : 2048 ≤ m) :
    computeContextSize t m = 2048 := by
  rw [computeContextSize_eq_ediv]
  omega

/-- C1: corrected. As stated the claim is false: the source rounds up to a
multiple of 256 AFTER clamping to maxContext, so when maxContext is not a
multiple of 256 the result can exceed it. At estimatedTokens 2000 and
maxContext 2100 (both in the claimed domain) the computation returns 2304,
which is above the claimed maxContext ceiling. -/
theorem C1_counterexample :
    (0 : Int) ≤ 2000 ∧ (2048 : Int) ≤ 2100 ∧
    computeContextSize 2000 2100 = 2304 ∧ ¬(computeContextSize 2000 2100 ≤ 2100) := by
  decide

/-- C1 amended: for estimatedTokens at least 0 and maxContext at least 2048
the result is a multiple of 256, at least 2048, at most maxContext rounded
up to a multiple of 256 (hence at most maxContext whenever maxContext is
itself a multiple of 256), and at least
min(estimatedTokens + 1000 rounded up to a multiple of 256, maxContext). -/
theorem C1_amended_bounds (t m : Int) (ht : 0 ≤ t) (hm : 2048 ≤ m) :
    computeContextSize t m % 256 = 0 ∧
    2048 ≤ computeContextSize t m ∧
    computeContextSize t m ≤ roundUp256 m ∧
    min (roundUp256 (t + 1000)) m ≤ computeContextSize t m := by
  rw [computeContextSize_eq_ediv, roundUp256_eq_ediv, roundUp256_eq_ediv]
  omega

/-- Witness for C1_amended_bounds at estimatedTokens 5000, maxContext 128000. -/
theorem C1_witness :
    (0 : Int) ≤ 5000 ∧ (2048 : Int) ≤ 128000 ∧
    (computeContextSize 5000 128000 % 256 = 0 ∧
     2048 ≤ computeContextSize 5000 128000 ∧
     computeContextSize 5000 128000 ≤ roundUp256 128000 ∧
     min (roundUp256 (5000 + 1000)) 128000 ≤ computeContextSize 5000 128000) :=
  ⟨by decide, by decide, C1_amended_bounds 5000 128000 (by decide) (by decide)⟩

/-- C2: confirmed. The context-size computation is a pure function of its
two arguments (determinism is the final conjunct; purity is intrinsic to
the embedding as a Lean function of exactly those arguments) and on the
three concrete inputs it returns 2048, 6144 and 128000. -/
theorem C2_concrete_values :
    computeContextSize 0 128000 = 2048 ∧
    computeContextSize 5000 128000 = 6144 ∧
    computeContextSize 200000 128000 = 128000 ∧
    ∀ t m : Int, computeContextSize t m = computeContextSize t m :=
  ⟨by decide, by decide, by decide, fun _ _ => rfl⟩

/-- C3: corrected. The source performs no size validation at all: no
InvalidSizeError (or any error) exists on this path. With
estimatedTokens -1 (claimed domain of mandatory failure) the handler
still returns a 200 success body whose contextSize is the numeric 2048,
and with maxContext 1000 (below 2048) the computation still returns the
numeric 1024 instead of failing. -/
theorem C3_counterexample :
    ((handleCreateCache sampleCfg { sampleReq with estimatedTokens := -1 }
        fsWithTemp procOk fsAfterCreate true true).resp.toOption.map
        CreateResponse.contextSize = some 2048) ∧
    computeContextSize 0 1000 = 1024 := by
  decide

/-- C3 amended: for estimatedTokens below 0 the computation does not fail;
whenever the request otherwise validates and maxContext is at least 2048,
the handler returns a numeric context size, namely the 2048 floor. -/
theorem C3_amended_no_failure (cfg : BridgeConfig) (req : CreateRequest)
    (fs0 : FS) (proc : ProcResult) (fs1 : FS) (promoteOk cleanupOk : Bool)
    (b0 : Bytes) (hdoc : req.documentId ≠ "")
    (htemp : fs0 req.tempFilePath = some b0)
    (hneg : req.estimatedTokens < 0) (hmax : 2048 ≤ cfg.maxContext) :
    ∃ resp, (handleCreateCache cfg req fs0 proc fs1 promoteOk cleanupOk).resp
        = Except.ok resp ∧ resp.contextSize = 2048 := by
  unfold handleCreateCache
  rw [if_neg hdoc, htemp]
  simp only [Option.isNone_some, Bool.false_eq_true, if_false]
  exact ⟨_, rfl, computeContextSize_of_neg _ _ hneg hmax⟩

/-- Witness for C3_amended_no_failure at a concrete request. -/
theorem C3_witness :
    ∃ resp, (handleCreateCache sampleCfg { sampleReq with estimatedTokens := -1 }
        fsWithTemp procOk fsAfterCreate true true).resp = Except.ok resp ∧
      resp.contextSize = 2048 :=
  C3_amended_no_failure sampleCfg { sampleReq with estimatedTokens := -1 }
    fsWithTemp procOk fsAfterCreate true true [7, 7, 7]
    (by decide) (by decide) (by decide) (by decide)

theorem handleCreateCache_eq_core (cfg : BridgeConfig) (req : CreateRequest)
    (fs0 : FS) (proc : ProcResult) (fs1 : FS) (promoteOk cleanupOk : Bool)
    (b0 : Bytes) (hdoc : req.documentId ≠ "")
    (htemp : fs0 req.tempFilePath = some b0) :
    handleCreateCache cfg req fs0 proc fs1 promoteOk cleanupOk
      = createCore cfg req proc fs1 promoteOk cleanupOk := by
  unfold handleCreateCache
  rw [if_neg hdoc, htemp]
  simp

theorem cleanupTemp_no_promote (req : CreateRequest) (fs2 : FS)
    (cleanupOk : Bool) (s d : String) :
    Event.promoteAttempt s d ∉ (cleanupTemp req fs2 cleanupOk).2 := by
  unfold cleanupTemp
  split
  · split <;> simp
  · simp

theorem sizeAndPromote_eq_none (cfg : BridgeConfig) (req : CreateRequest)
    (proc : ProcResult) (fs1 : FS) (promoteOk : Bool)
    (h : proc.returncode ≠ 0 ∨ fs1 req.kvCachePath = none) :
    sizeAndPromote cfg req proc fs1 promoteOk = (none, fs1, []) := by
  unfold sizeAndPromote
  rcases h with h | h
  · rw [if_neg h]
  · split
    · rw [h]
    · rfl

theorem sizeAndPromote_eq_pos (cfg : BridgeConfig) (req : CreateRequest)
    (proc : ProcResult) (fs1 : FS) (promoteOk : Bool) (content : Bytes)
    (hrc : proc.returncode = 0) (hcache : fs1 req.kvCachePath = some content) :
    sizeAndPromote cfg req proc fs1 promoteOk =
      if (isMasterDoc req.documentId || req.setAsMaster) then
        if promoteOk then
          (some content.length, FS.update fs1 cfg.masterKvCache content,
           [Event.promoteAttempt req.kvCachePath cfg.masterKvCache])
        else
          (some content.length, fs1,
           [Event.promoteAttempt req.kvCachePath cfg.masterKvCache])
      else (some content.length, fs1, []) := by
  unfold sizeAndPromote
  rw [if_pos hrc, hcache]

/-- C4: corrected. As stated the claim is false: when the external create
command exits 0 but the cache file is absent, the source does not surface
any failure. The success flag is keyed solely on the exit code, so the
response is a success body whose kvCacheSize is null; promotion is indeed
skipped (here even though setAsMaster was requested). -/
theorem C4_counterexample :
    (handleCreateCache sampleCfg { sampleReq with setAsMaster := true }
      fsWithTemp procOk fsWithTemp true true).resp.toOption.map
      CreateResponse.success = some true ∧
    (handleCreateCache sampleCfg { sampleReq with setAsMaster := true }
      fsWithTemp procOk fsWithTemp true true).resp.toOption.map
      CreateResponse.kvCacheSize = some none ∧
    (handleCreateCache sampleCfg { sampleReq with setAsMaster := true }
      fsWithTemp procOk fsWithTemp true true).events
      = [Event.removeTemp "/tmp/doc1.txt"] := by
  decide

/-- C4 amended: when the create command exits 0 but the output cache file
does not exist afterwards, the operation returns a 200 body whose success
flag is still true and whose kvCacheSize is null (the missing artifact is
visible only there, never as a failure), and promotion to the master cache
is not attempted. -/
theorem C4_amended_success_no_promotion (cfg : BridgeConfig)
    (req : CreateRequest) (fs0 : FS) (proc : ProcResult) (fs1 : FS)
    (promoteOk cleanupOk : Bool) (b0 : Bytes)
    (hdoc : req.documentId ≠ "") (htemp : fs0 req.tempFilePath = some b0)
    (hrc : proc.returncode = 0) (hmiss : fs1 req.kvCachePath = none) :
    ∃ resp, (handleCreateCache cfg req fs0 proc fs1 promoteOk cleanupOk).resp
        = Except.ok resp ∧ resp.success = true ∧ resp.kvCacheSize = none ∧
      ∀ s d, Event.promoteAttempt s d
        ∉ (handleCreateCache cfg req fs0 proc fs1 promoteOk cleanupOk).events := by
  rw [handleCreateCache_eq_core cfg req fs0 proc fs1 promoteOk cleanupOk b0 hdoc htemp]
  simp only [createCore,
    sizeAndPromote_eq_none cfg req proc fs1 promoteOk (Or.inr hmiss)]
  refine ⟨_, rfl, by simp [hrc], rfl, ?_⟩
  intro s d
  simpa using cleanupTemp_no_promote req fs1 cleanupOk s d

/-- Witness for C4_amended_success_no_promotion at a concrete request. -/
theorem C4_witness :
    ∃ resp, (handleCreateCache sampleCfg { sampleReq with setAsMaster := true }
        fsWithTemp procOk fsWithTemp true true).resp = Except.ok resp ∧
      resp.success = true ∧ resp.kvCacheSize = none ∧
      ∀ s d, Event.promoteAttempt s d
        ∉ (handleCreateCache sampleCfg { sampleReq with setAsMaster := true }
            fsWithTemp procOk fsWithTemp true true).events :=
  C4_amended_success_no_promotion sampleCfg { sampleReq with setAsMaster := true }
    fsWithTemp procOk fsWithTemp true true [7, 7, 7]
    (by decide) (by decide) rfl (by decide)

/-- C5: corrected. On a non-zero exit code the failure result does carry
the captured stderr and promotion is not attempted, but the claim that the
temporary input file is not deleted is false: the cleanup block
(cag_bridge.py lines 175 to 181) runs regardless of the exit code. Here
the create command fails with stderr "boom" while the temp file exists,
and the final filesystem no longer contains it. -/
theorem C5_counterexample :
    fsAfterCreate "/tmp/doc1.txt" = some [7, 7, 7] ∧
    (handleCreateCache sampleCfg sampleReq fsWithTemp procFail fsAfterCreate
      true true).resp.toOption.map CreateResponse.error = some (some "boom") ∧
    (handleCreateCache sampleCfg sampleReq fsWithTemp procFail fsAfterCreate
      true true).fs "/tmp/doc1.txt" = none := by
  decide

/-- C5 amended: on a non-zero exit code the operation returns a failure
result carrying the captured stderr and does not attempt promotion, but it
DOES delete the temporary input file (whenever the file still exists and
os.remove itself succeeds), because the cleanup block runs regardless of
the outcome. -/
theorem C5_amended_failure_path (cfg : BridgeConfig) (req : CreateRequest)
    (fs0 : FS) (proc : ProcResult) (fs1 : FS) (promoteOk : Bool)
    (b0 b1 : Bytes) (hdoc : req.documentId ≠ "")
    (htemp : fs0 req.tempFilePath = some b0)
    (hrc : proc.returncode ≠ 0) (htemp1 : fs1 req.tempFilePath = some b1) :
    ∃ resp, (handleCreateCache cfg req fs0 proc fs1 promoteOk true).resp
        = Except.ok resp ∧ resp.success = false ∧
      resp.error = some proc.stderr ∧
      (∀ s d, Event.promoteAttempt s d
        ∉ (handleCreateCache cfg req fs0 proc fs1 promoteOk true).events) ∧
      (handleCreateCache cfg req fs0 proc fs1 promoteOk true).fs
        req.tempFilePath = none := by
  rw [handleCreateCache_eq_core cfg req fs0 proc fs1 promoteOk true b0 hdoc htemp]
  simp only [createCore,
    sizeAndPromote_eq_none cfg req proc fs1 promoteOk (Or.inl hrc)]
  have hclean : cleanupTemp req fs1 true
      = (FS.remove fs1 req.tempFilePath, [Event.removeTemp req.tempFilePath]) := by
    unfold cleanupTemp
    rw [htemp1]
    rfl
  refine ⟨_, rfl, by simp [hrc], by simp [hrc], ?_, ?_⟩
  · intro s d
    simpa using cleanupTemp_no_promote req fs1 true s d
  · show (cleanupTemp req fs1 true).1 req.tempFilePath = none
    rw [hclean]
    simp [FS.remove]

/-- Witness for C5_amended_failure_path at a concrete request. -/
theorem C5_witness :
    ∃ resp, (handleCreateCache sampleCfg sampleReq fsWithTemp procFail
        fsAfterCreate true true).resp = Except.ok resp ∧
      resp.success = false ∧ resp.error = some procFail.stderr ∧
      (∀ s d, Event.promoteAttempt s d
        ∉ (handleCreateCache sampleCfg sampleReq fsWithTemp procFail
            fsAfterCreate true true).events) ∧
      (handleCreateCache sampleCfg sampleReq fsWithTemp procFail
        fsAfterCreate true true).fs sampleReq.tempFilePath = none :=
  C5_amended_failure_path sampleCfg sampleReq fsWithTemp procFail fsAfterCreate
    true [7, 7, 7] [7, 7, 7] (by decide) (by decide) (by decide) (by decide)

/-- C6: confirmed. For a successful creation (zero exit code, cache file
present with content), promotion to the master cache is attempted exactly
when the document id case-insensitively contains "master" or setAsMaster
is true; when attempted and the copy succeeds, the master path holds
exactly the new cache content no matter what it held before (fs1 and in
particular its prior master content are arbitrary); and when the copy
fails the overall result is still a success body. The master path must
differ from the temp input path, otherwise the unconditional cleanup
would delete the freshly promoted copy. -/
theorem C6_promotion_spec (cfg : BridgeConfig) (req : CreateRequest)
    (fs0 : FS) (proc : ProcResult) (fs1 : FS) (cleanupOk : Bool)
    (b0 content : Bytes) (hdoc : req.documentId ≠ "")
    (htemp : fs0 req.tempFilePath = some b0)
    (hrc : proc.returncode = 0) (hcache : fs1 req.kvCachePath = some content) :
    (∀ promoteOk, Event.promoteAttempt req.kvCachePath cfg.masterKvCache
        ∈ (handleCreateCache cfg req fs0 proc fs1 promoteOk cleanupOk).events
      ↔ (isMasterDoc req.documentId || req.setAsMaster) = true) ∧
    ((isMasterDoc req.documentId || req.setAsMaster) = true →
      cfg.masterKvCache ≠ req.tempFilePath →
      (handleCreateCache cfg req fs0 proc fs1 true cleanupOk).fs
        cfg.masterKvCache = some content) ∧
    (∃ resp, (handleCreateCache cfg req fs0 proc fs1 false cleanupOk).resp
        = Except.ok resp ∧ resp.success = true) := by
  refine ⟨?_, ?_, ?_⟩
  · intro promoteOk
    rw [handleCreateCache_eq_core cfg req fs0 proc fs1 promoteOk cleanupOk b0
      hdoc htemp]
    simp only [createCore,
      sizeAndPromote_eq_pos cfg req proc fs1 promoteOk content hrc hcache]
    by_cases hcond : (isMasterDoc req.documentId || req.setAsMaster) = true
    · rw [if_pos hcond]
      cases promoteOk <;> simp [hcond]
    · rw [if_neg hcond]
      simp only [List.nil_append]
      constructor
      · intro hmem
        exact absurd hmem (cleanupTemp_no_promote req fs1 cleanupOk _ _)
      · intro h
        exact absurd h hcond
  · intro hcond hne
    rw [handleCreateCache_eq_core cfg req fs0 proc fs1 true cleanupOk b0
      hdoc htemp]
    simp only [createCore,
      sizeAndPromote_eq_pos cfg req proc fs1 true content hrc hcache,
      if_pos hcond, if_pos rfl]
    show (cleanupTemp req (FS.update fs1 cfg.masterKvCache content)
      cleanupOk).1 cfg.masterKvCache = some content
    unfold cleanupTemp
    split
    · split
      · simp [FS.remove, FS.update, hne]
      · simp [FS.update]
    · simp [FS.update]
  · rw [handleCreateCache_eq_core cfg req fs0 proc fs1 false cleanupOk b0
      hdoc htemp]
    exact ⟨_, rfl, by simp [hrc]⟩

/-- Witness for C6_promotion_spec: a successful creation with setAsMaster
requested, against a filesystem whose master slot already holds different
bytes. -/
theorem C6_witness :
    (∀ promoteOk, Event.promoteAttempt sampleReq.kvCachePath
        sampleCfg.masterKvCache
        ∈ (handleCreateCache sampleCfg { sampleReq with setAsMaster := true }
            fsWithTemp procOk fsAfterCreate promoteOk true).events
      ↔ (isMasterDoc { sampleReq with setAsMaster := true }.documentId
          || { sampleReq with setAsMaster := true }.setAsMaster) = true) ∧
    ((isMasterDoc { sampleReq with setAsMaster := true }.documentId
        || { sampleReq with setAsMaster := true }.setAsMaster) = true →
      sampleCfg.masterKvCache ≠ sampleReq.tempFilePath →
      (handleCreateCache sampleCfg { sampleReq with setAsMaster := true }
        fsWithTemp procOk fsAfterCreate true true).fs sampleCfg.masterKvCache
        = some [1, 2, 3]) ∧
    (∃ resp, (handleCreateCache sampleCfg { sampleReq with setAsMaster := true }
        fsWithTemp procOk fsAfterCreate false true).resp = Except.ok resp ∧
      resp.success = true) :=
  C6_promotion_spec sampleCfg { sampleReq with setAsMaster := true }
    fsWithTemp procOk fsAfterCreate true [7, 7, 7] [1, 2, 3]
    (by decide) (by decide) rfl (by decide)

theorem mkEntry_none (f : FileInfo) :
    mkEntry none f =
      { cacheFile := f.path, cacheName := f.name, documentId := "unknown"
      , fileName := "unknown", sectionTitle := "", sizeBytes := f.sizeBytes
      , createdAt := f.mtime, lastUsed := none, usageCount := 0 } := rfl

theorem keepEntry_mkEntry_none (days : Option Int) (unusedOnly : Bool)
    (now : Int) (f : FileInfo) :
    keepEntry days unusedOnly now (mkEntry none f) = true := by
  cases days <;> simp [keepEntry, mkEntry_none]

theorem sortEntries_perm (sortBy : SortBy) (l : List CacheEntry) :
    List.Perm (sortEntries sortBy l) l := by
  cases sortBy <;> exact List.mergeSort_perm l _

/-- C7: confirmed. When the registry store is unreachable (db none, so
db_info stays empty) and the cache directory exists, list_caches does not
fail: it returns exactly the filesystem cache files (as a permutation of
their default entries, whatever the sort order), each carrying
usageCount 0, documentId "unknown" and null lastUsed — regardless of any
daysFilter or unusedOnly arguments, which never drop such entries. -/
theorem C7_registry_unreachable (files : List FileInfo) (now : Int)
    (days : Option Int) (unusedOnly : Bool) (sortBy : SortBy) :
    ∃ l, list_caches true files none now days unusedOnly sortBy = some l ∧
      List.Perm l (files.map (mkEntry none)) ∧
      ∀ e ∈ l, e.usageCount = 0 ∧ e.documentId = "unknown" ∧
        e.lastUsed = none := by
  have hfilter : (files.map (mkEntry none)).filter (keepEntry days unusedOnly now)
      = files.map (mkEntry none) := by
    apply List.filter_eq_self.mpr
    intro a ha
    rcases List.mem_map.mp ha with ⟨f, hf, rfl⟩
    exact keepEntry_mkEntry_none days unusedOnly now f
  refine ⟨sortEntries sortBy ((files.map (mkEntry none)).filter
    (keepEntry days unusedOnly now)), by simp [list_caches], ?_, ?_⟩
  · rw [hfilter]
    exact sortEntries_perm sortBy _
  · intro e he
    rw [hfilter] at he
    have hmem := (sortEntries_perm sortBy _).mem_iff.mp he
    rcases List.mem_map.mp hmem with ⟨f, hf, rfl⟩
    simp [mkEntry_none]

/-- Witness for C7_registry_unreachable at a one-file filesystem with the
registry store down. -/
theorem C7_witness :
    ∃ l, list_caches true [c8File] none 0 (some 7) true SortBy.size = some l ∧
      List.Perm l ([c8File].map (mkEntry none)) ∧
      ∀ e ∈ l, e.usageCount = 0 ∧ e.documentId = "unknown" ∧
        e.lastUsed = none :=
  C7_registry_unreachable [c8File] 0 (some 7) true SortBy.size

/-- C8: the claim matches the script's own help text ("only show caches
used within this many days") but not the code: the days filter
(list_caches.py line 141) is guarded by the truthiness of last_used, so an
entry whose lastUsedAt is null is KEPT, not dropped. With daysFilter 7 and
a registry row whose last_used is NULL, the never-used entry is returned. -/
theorem C8_code_behavior :
    list_caches true [c8File] (some [c8Row]) 100000 (some 7) false
      SortBy.document =
      some [{ cacheFile := "/kv/never_used.bin", cacheName := "never_used.bin"
            , documentId := "docX", fileName := "x.txt", sectionTitle := "s"
            , sizeBytes := 4096, createdAt := 900, lastUsed := none
            , usageCount := 5 }] := by
  unfold list_caches
  rw [if_pos rfl]
  have hfilter : ([c8File].map (mkEntry (some [c8Row]))).filter
      (keepEntry (some 7) false 100000)
      = [{ cacheFile := "/kv/never_used.bin", cacheName := "never_used.bin"
         , documentId := "docX", fileName := "x.txt", sectionTitle := "s"
         , sizeBytes := 4096, createdAt := 900, lastUsed := none
         , usageCount := 5 }] := rfl
  rw [hfilter]
  simp [sortEntries]

/-- C9: corrected. The claim is false because the /query handler takes no
cache path at all: the command it builds always embeds the configured
master cache path (cag_bridge.py line 75). Here a creation succeeds and
produces the cache path /data/kv_caches/doc1.bin, yet the query command
built immediately afterwards does not contain that path anywhere. -/
theorem C9_counterexample :
    (handleCreateCache sampleCfg sampleReq fsWithTemp procOk fsAfterCreate
      true true).resp.toOption.map CreateResponse.success = some true ∧
    (handleCreateCache sampleCfg sampleReq fsWithTemp procOk fsAfterCreate
      true true).resp.toOption.map CreateResponse.kvCachePath
      = some "/data/kv_caches/doc1.bin" ∧
    strContains (buildQueryCommand sampleCfg "what is this" 1024 (some "0.7"))
      "/data/kv_caches/doc1.bin" = false := by
  decide

/-- C9 amended: the query operation ignores any created cache path and
always attaches the configured master cache path, verbatim and unmodified
by the query formatting, in the cache slot of the inference command; a
created cache is therefore only reachable by a query when its content was
promoted to the master path (or when its path IS the master path). -/
theorem C9_amended_master_verbatim (cfg : BridgeConfig) (query : String)
    (maxTokens : Int) (temperature : Option String) :
    (buildQueryCommand cfg query maxTokens temperature).data
      = (queryCmdBeforeCache cfg).data ++ cfg.masterKvCache.data
        ++ (queryCmdAfterCache query maxTokens temperature).data := by
  simp [buildQueryCommand, queryCmdBeforeCache, queryCmdAfterCache]

/-- C10: confirmed. In every 200 body of /query and /create-cache, the
success flag is true exactly when the error field is null, and the error
field carries the captured stderr (possibly the empty string) exactly when
the exit code is non-zero. -/
theorem C10_success_error_invariant :
    (∀ cfg query maxTokens temperature proc,
      ((handleQuery cfg query maxTokens temperature proc).2.success = true
        ↔ (handleQuery cfg query maxTokens temperature proc).2.error = none) ∧
      ((handleQuery cfg query maxTokens temperature proc).2.error
          = some proc.stderr ↔ proc.returncode ≠ 0)) ∧
    (∀ cfg req fs0 proc fs1 promoteOk cleanupOk resp,
      (handleCreateCache cfg req fs0 proc fs1 promoteOk cleanupOk).resp
        = Except.ok resp →
      ((resp.success = true ↔ resp.error = none) ∧
        (resp.error = some proc.stderr ↔ proc.returncode ≠ 0))) := by
  constructor
  · intro cfg query maxTokens temperature proc
    by_cases h : proc.returncode = 0 <;> simp [handleQuery, h]
  · intro cfg req fs0 proc fs1 promoteOk cleanupOk resp h
    unfold handleCreateCache at h
    split at h
    · simp at h
    · split at h
      · simp at h
      · simp only [createCore, Except.ok.injEq] at h
        subst h
        by_cases h0 : proc.returncode = 0 <;> simp [h0]

/-- Witness for the create-cache half of C10_success_error_invariant at a
concrete failed run. -/
theorem C10_witness :
    ((handleCreateCache sampleCfg sampleReq fsWithTemp procFail fsAfterCreate
        true true).resp = Except.ok
      { success := false, documentId := "doc1"
      , kvCachePath := "/data/kv_caches/doc1.bin", kvCacheSize := none
      , contextSize := 6144, error := some "boom", output := "" }) ∧
    ((false = true ↔ (some "boom" : Option String) = none) ∧
      ((some "boom" : Option String) = some procFail.stderr
        ↔ procFail.returncode ≠ 0)) :=
  have h : (handleCreateCache sampleCfg sampleReq fsWithTemp procFail
      fsAfterCreate true true).resp = Except.ok
      { success := false, documentId := "doc1"
      , kvCachePath := "/data/kv_caches/doc1.bin", kvCacheSize := none
      , contextSize := 6144, error := some "boom", output := "" } := rfl
  ⟨h, C10_success_error_invariant.2 sampleCfg sampleReq fsWithTemp procFail
      fsAfterCreate true true _ h⟩
